import Mathlib

/-!
Verification development for the TFCU procedure-formatter annotation engine.

Shallow embedding of the Python sources:
  * src/screenshot_processor.py                                   (namespace Src)
  * src/extracted-skill/tfcu-procedure-formatter/screenshot_processor.py
  * src/extracted-skill/tfcu-procedure-formatter/scripts/text_color_parser.py
  * src/extracted-skill/tfcu-procedure-formatter/scripts/validate_procedure.py

Modelling conventions:
  * Python float arithmetic on the values exercised here is exact, so floats
    produced by percentage arithmetic are modelled by the exact rational type
    PyQ below (kernel-reducible, unlike Mathlib Rat which blocks on
    normalisation), and values produced by math.sqrt are modelled by real
    numbers.
  * Python round() is round-half-to-even; int() truncates toward zero.
  * Python dicts are modelled as insertion-ordered association lists with
    update-in-place semantics, matching CPython dict ordering.
  * Python truthiness on optional strings and integers is modelled explicitly
    (None and the empty string are falsy; integer 0 is falsy).
-/

set_option maxHeartbeats 2000000

set_option maxRecDepth 8000

/-- Exact rational numbers with kernel-reducible arithmetic; the denominator is
positive for every value constructed in this development. -/
structure PyQ where
  num : ℤ
  den : ℤ
deriving DecidableEq

def PyQ.ofInt (n : ℤ) : PyQ := ⟨n, 1⟩

def PyQ.add (a b : PyQ) : PyQ := ⟨a.num * b.den + b.num * a.den, a.den * b.den⟩

def PyQ.mul (a b : PyQ) : PyQ := ⟨a.num * b.num, a.den * b.den⟩

def PyQ.div (a b : PyQ) : PyQ :=
  if b.num < 0 then ⟨-(a.num * b.den), a.den * (-b.num)⟩ else ⟨a.num * b.den, a.den * b.num⟩

def PyQ.floor (q : PyQ) : ℤ := q.num.fdiv q.den

/-- Python round() on an exact rational value: round half to even. -/
def roundHalfEvenQ (q : PyQ) : ℤ :=
  let f := q.floor
  let r := q.num - f * q.den
  if 2 * r < q.den then f
  else if q.den < 2 * r then f + 1
  else if f % 2 = 0 then f else f + 1

/-- Python int() on an exact rational value: truncate toward zero. -/
def truncQ (q : PyQ) : ℤ := q.num.tdiv q.den

/-- Python round() on a real value (used where math.sqrt enters): round half
to even. -/
noncomputable def roundHalfEvenR (x : ℝ) : ℤ :=
  let f := Int.floor x
  if x - f < 1/2 then f
  else if (1:ℝ)/2 < x - f then f + 1
  else if f % 2 = 0 then f else f + 1

namespace Src

/-- src/screenshot_processor.py percent_to_pixels:
return int((percent / 100) * dimension) -/
def percent_to_pixels (percent : PyQ) (dimension : ℤ) : ℤ :=
  truncQ ((percent.div (PyQ.ofInt 100)).mul (PyQ.ofInt dimension))

end Src

/-- extracted-skill screenshot_processor.py percent_to_pixels:
return round((percent / 100) * dimension) -/
def percent_to_pixels (percent : PyQ) (dimension : ℤ) : ℤ :=
  roundHalfEvenQ ((percent.div (PyQ.ofInt 100)).mul (PyQ.ofInt dimension))

/-- extracted-skill screenshot_processor.py clamp_to_bounds. -/
def clamp_to_bounds (x y radius width height margin : ℤ) : ℤ × ℤ :=
  (max (radius + margin) (min x (width - radius - margin)),
   max (radius + margin) (min y (height - radius - margin)))

/-- extracted-skill screenshot_processor.py calculate_dynamic_radius
(base_radius is accepted and ignored, as in the source; 0.055 = 55/1000). -/
def calculate_dynamic_radius (image_width base_radius min_radius max_radius : ℤ) : ℤ :=
  max min_radius (min max_radius (roundHalfEvenQ ((PyQ.ofInt image_width).mul ⟨55, 1000⟩)))

/- ------------------------------------------------------------------ -/
/- Python string helpers (kernel-reducible versions of lower/strip/...) -/
/- ------------------------------------------------------------------ -/

def pyLower (s : String) : String := ⟨s.data.map Char.toLower⟩

def pyStrip (s : String) : String :=
  ⟨((s.data.dropWhile Char.isWhitespace).reverse.dropWhile Char.isWhitespace).reverse⟩

def pyStartsWith (s pre : String) : Bool := pre.data.isPrefixOf s.data

def pyTake (s : String) (n : ℕ) : String := ⟨s.data.take n⟩

def pyLen (s : String) : ℕ := s.data.length

/- ------------------------------------------------------------------ -/
/- Annotation descriptors (the JSON dicts fed to the validator)        -/
/- ------------------------------------------------------------------ -/

/-- A position dict {x, y} in percentage units; either key may be absent. -/
structure PosPct where
  x : Option PyQ
  y : Option PyQ
deriving DecidableEq

/-- A bbox dict {x, y, w, h} in percentage units; any key may be absent. -/
structure BBoxPct where
  x : Option PyQ
  y : Option PyQ
  w : Option PyQ
  h : Option PyQ
deriving DecidableEq

/-- An annotation descriptor dict; every field optional, matching dict.get
use in the source. The Python key "end" is modelled as endPos. -/
structure Ann where
  type : Option String
  position : Option PosPct
  radius : Option PyQ
  text : Option String
  bbox : Option BBoxPct
  endPos : Option PosPct
  description : Option String
  number : Option ℤ
  color : Option String
  figure_title : Option String
deriving DecidableEq

/-- An annotation descriptor with every key absent. -/
def annBase : Ann :=
  { type := none, position := none, radius := none, text := none, bbox := none,
    endPos := none, description := none, number := none, color := none,
    figure_title := none }

/-- The record appended to placed_annotations by validate_and_adjust. -/
structure PlacedAnn where
  x : ℤ
  y : ℤ
  radius : ℤ
  type : String
  number : Option ℤ
deriving DecidableEq

/-- AnnotationValidator state: image dimensions, margin and the accumulating
placed_annotations list. -/
structure AnnotationValidator where
  width : ℤ
  height : ℤ
  margin : ℤ
  placed_annotations : List PlacedAnn
deriving DecidableEq

/-- AnnotationValidator.get_annotation_bounds: center (x, y) and effective
radius for an annotation, per variant. -/
def get_annotation_bounds (v : AnnotationValidator) (ann : Ann) (default_radius : ℤ) :
    ℤ × ℤ × ℤ :=
  let ann_type := ann.type.getD "callout"
  if ann_type = "callout" ∨ ann_type = "circle" then
    let pos := ann.position.getD ⟨some (PyQ.ofInt 50), some (PyQ.ofInt 50)⟩
    let x := percent_to_pixels (pos.x.getD (PyQ.ofInt 50)) v.width
    let y := percent_to_pixels (pos.y.getD (PyQ.ofInt 50)) v.height
    let radius :=
      if ann_type = "callout" then calculate_dynamic_radius v.width 18 14 28
      else percent_to_pixels (ann.radius.getD (PyQ.ofInt 5)) v.width
    (x, y, radius)
  else if ann_type = "label" then
    let pos := ann.position.getD ⟨some (PyQ.ofInt 50), some (PyQ.ofInt 50)⟩
    let x := percent_to_pixels (pos.x.getD (PyQ.ofInt 50)) v.width
    let y := percent_to_pixels (pos.y.getD (PyQ.ofInt 50)) v.height
    let text_len : ℤ := (pyLen (ann.text.getD "Label") : ℤ)
    (x, y, max 20 (text_len * 4))
  else if ann_type = "highlight" then
    let bbox := ann.bbox.getD ⟨some (PyQ.ofInt 40), some (PyQ.ofInt 40),
                               some (PyQ.ofInt 20), some (PyQ.ofInt 20)⟩
    let x := percent_to_pixels
      ((bbox.x.getD (PyQ.ofInt 40)).add ((bbox.w.getD (PyQ.ofInt 20)).div (PyQ.ofInt 2))) v.width
    let y := percent_to_pixels
      ((bbox.y.getD (PyQ.ofInt 40)).add ((bbox.h.getD (PyQ.ofInt 20)).div (PyQ.ofInt 2))) v.height
    let radius := max
      (percent_to_pixels ((bbox.w.getD (PyQ.ofInt 20)).div (PyQ.ofInt 2)) v.width)
      (percent_to_pixels ((bbox.h.getD (PyQ.ofInt 20)).div (PyQ.ofInt 2)) v.height)
    (x, y, radius)
  else if ann_type = "arrow" then
    let e := ann.endPos.getD ⟨some (PyQ.ofInt 50), some (PyQ.ofInt 50)⟩
    (percent_to_pixels (e.x.getD (PyQ.ofInt 50)) v.width,
     percent_to_pixels (e.y.getD (PyQ.ofInt 50)) v.height, 15)
  else
    (v.width.fdiv 2, v.height.fdiv 2, default_radius)

/-- AnnotationValidator.check_bounds: (fits, reason). -/
def check_bounds (v : AnnotationValidator) (x y radius : ℤ) : Bool × String :=
  if x - radius < v.margin then (false, s!"Too close to left edge (x={x}, radius={radius})")
  else if x + radius > v.width - v.margin then
    (false, s!"Too close to right edge (x={x}, radius={radius})")
  else if y - radius < v.margin then (false, s!"Too close to top edge (y={y}, radius={radius})")
  else if y + radius > v.height - v.margin then
    (false, s!"Too close to bottom edge (y={y}, radius={radius})")
  else (true, "OK")

/-- A collision record produced by check_collision. -/
structure Collision where
  placed : PlacedAnn
  distance : ℝ
  required : ℤ
  overlap : ℝ

/-- AnnotationValidator.check_collision: collisions of (x, y, radius) against
every already placed annotation; distance is the float Euclidean distance. -/
noncomputable def check_collision (v : AnnotationValidator) (x y radius min_gap : ℤ) :
    List Collision :=
  v.placed_annotations.filterMap fun p =>
    let distance := Real.sqrt (((x - p.x : ℤ) : ℝ)^2 + ((y - p.y : ℤ) : ℝ)^2)
    let min_distance := radius + p.radius + min_gap
    if distance < (min_distance : ℝ) then
      some ⟨p, distance, min_distance, (min_distance : ℝ) - distance⟩
    else none

/-- AnnotationValidator.suggest_adjustment: push away from colliding
neighbours (diagonal push for coincident centers), round, then clamp. -/
noncomputable def suggest_adjustment (v : AnnotationValidator) (x y radius : ℤ)
    (collisions : List Collision) : ℤ × ℤ :=
  if collisions.isEmpty then (x, y)
  else
    let s := collisions.foldl
      (fun (acc : ℝ × ℝ) col =>
        let vx : ℤ := x - col.placed.x
        let vy : ℤ := y - col.placed.y
        let dist := Real.sqrt ((vx : ℝ)^2 + (vy : ℝ)^2)
        if 0 < dist then
          (acc.1 + ((vx : ℝ) / dist) * (col.overlap + 5),
           acc.2 + ((vy : ℝ) / dist) * (col.overlap + 5))
        else (acc.1 + (col.overlap + 5), acc.2 + (col.overlap + 5)))
      (0, 0)
    let new_x := roundHalfEvenR ((x : ℝ) + s.1)
    let new_y := roundHalfEvenR ((y : ℝ) + s.2)
    clamp_to_bounds new_x new_y radius v.width v.height v.margin

/-- Position after the bounds-check step of validate_and_adjust: unchanged if
check_bounds passes, otherwise clamped. -/
def adjust_for_bounds (v : AnnotationValidator) (x y radius : ℤ) : ℤ × ℤ :=
  if (check_bounds v x y radius).1 then (x, y)
  else clamp_to_bounds x y radius v.width v.height v.margin

/-- Final pixel position registered by validate_and_adjust: bounds step, then
collision adjustment when collisions were found. -/
noncomputable def final_position (v : AnnotationValidator) (x y radius : ℤ) : ℤ × ℤ :=
  let p := adjust_for_bounds v x y radius
  let cols := check_collision v p.1 p.2 radius 5
  if cols.isEmpty then p else suggest_adjustment v p.1 p.2 radius cols

/-- Pixel position record {x, y, radius} used in validation results. -/
structure PixelPos where
  x : ℤ
  y : ℤ
  radius : ℤ
deriving DecidableEq

/-- Result record of validate_and_adjust. -/
structure VResult where
  valid : Bool
  adjusted : Bool
  original_position : Option PixelPos
  adjusted_position : Option PixelPos
  warnings : List String
  errors : List String
deriving DecidableEq

/-- AnnotationValidator.validate_and_adjust: validate one annotation, adjust
its position if needed, and register it as placed. Returns the result record
and the updated validator. -/
noncomputable def validate_and_adjust (v : AnnotationValidator) (ann : Ann) :
    VResult × AnnotationValidator :=
  let ann_type := ann.type.getD "callout"
  let b := get_annotation_bounds v ann 18
  let x := b.1
  let y := b.2.1
  let radius := b.2.2
  let ve : Bool × List String :=
    if (ann.description = none ∨ ann.description = some "") ∧
       (ann_type = "callout" ∨ ann_type = "arrow" ∨ ann_type = "highlight") then
      (false, [s!"Missing required description field for {ann_type}"])
    else (true, [])
  let cb := check_bounds v x y radius
  let bmsg := cb.2
  let p1 := adjust_for_bounds v x y radius
  let w1 : List String := if cb.1 then [] else [s!"Out of bounds: {bmsg}"]
  let cols := check_collision v p1.1 p1.2 radius 5
  let ncols := cols.length
  let w2 : List String := if cols.isEmpty then [] else
    [s!"Collision detected with {ncols} annotation(s)"]
  let p2 := final_position v x y radius
  let adjusted := !cb.1 || !cols.isEmpty
  ({ valid := ve.1,
     adjusted := adjusted,
     original_position := some ⟨x, y, radius⟩,
     adjusted_position := if adjusted then some ⟨p2.1, p2.2, radius⟩ else none,
     warnings := w1 ++ w2,
     errors := ve.2 },
   { v with placed_annotations :=
       v.placed_annotations ++ [⟨p2.1, p2.2, radius, ann_type, ann.number⟩] })

/-- One entry of the validate_all result: the per-annotation result plus the
index and the annotation itself. -/
structure VEntry where
  res : VResult
  index : ℕ
  ann : Ann
deriving DecidableEq

/-- The fold inside validate_all: process annotations in order, threading the
validator state. -/
noncomputable def validate_fold (v : AnnotationValidator) (anns : List Ann) (i : ℕ) :
    List VEntry × AnnotationValidator :=
  match anns with
  | [] => ([], v)
  | a :: rest =>
    let r := validate_and_adjust v a
    let next := validate_fold r.2 rest (i + 1)
    (⟨r.1, i, a⟩ :: next.1, next.2)

/-- Aggregate result of validate_all. -/
structure VAllResult where
  entries : List VEntry
  total : ℕ
  valid : ℕ
  adjusted : ℕ
  errorsCount : ℕ
  all_valid : Bool
deriving DecidableEq

/-- AnnotationValidator.validate_all: reset placed_annotations, fold
validate_and_adjust over the ordered list, and aggregate totals (the loop
counters of the source are recovered as counts over the entry list). -/
noncomputable def validate_all (v : AnnotationValidator) (anns : List Ann) :
    VAllResult × AnnotationValidator :=
  let v0 : AnnotationValidator := { v with placed_annotations := [] }
  let r := validate_fold v0 anns 0
  ({ entries := r.1,
     total := anns.length,
     valid := (r.1.filter (fun e => e.res.valid)).length,
     adjusted := (r.1.filter (fun e => e.res.adjusted)).length,
     errorsCount := (r.1.filter (fun e => !e.res.valid)).length,
     all_valid := r.1.all (fun e => e.res.valid) }, r.2)

/- ------------------------------------------------------------------ -/
/- Spec-side predicates for the placed-annotation invariant (claim C1) -/
/- ------------------------------------------------------------------ -/

/-- The bound required of a placed record by the spec invariant:
margin ≤ x ± radius ≤ dimension − margin on both axes. -/
abbrev withinBounds (width height margin : ℤ) (rec : PlacedAnn) : Prop :=
  margin ≤ rec.x - rec.radius ∧ rec.x + rec.radius ≤ width - margin ∧
  margin ≤ rec.y - rec.radius ∧ rec.y + rec.radius ≤ height - margin

/-- The canvas accommodates an effective radius r when the clamp interval
[r + margin, dimension − r − margin] is nonempty on both axes. -/
abbrev fitsCanvas (width height margin r : ℤ) : Prop :=
  2 * (r + margin) ≤ width ∧ 2 * (r + margin) ≤ height

/- ------------------------------------------------------------------ -/
/- Association-list dictionaries (CPython insertion-order semantics)   -/
/- ------------------------------------------------------------------ -/

/-- Python dict lookup on an insertion-ordered association list. -/
def assocFind {α β : Type} [DecidableEq α] : List (α × β) → α → Option β
  | [], _ => none
  | (k, v) :: rest, key => if k = key then some v else assocFind rest key

/-- Python dict assignment d[k] = v: overwrite in place, else append. -/
def dictUpd {α β : Type} [DecidableEq α] : List (α × β) → α → β → List (α × β)
  | [], k, v => [(k, v)]
  | (k0, v0) :: rest, k, v =>
    if k0 = k then (k, v) :: rest else (k0, v0) :: dictUpd rest k v

/- ------------------------------------------------------------------ -/
/- FigureRegistry (extracted-skill screenshot_processor.py)            -/
/- ------------------------------------------------------------------ -/

/-- FigureRegistry.COLOR_PALETTE, in source declaration order. -/
def COLOR_PALETTE : List (String × String) :=
  [("red", "#C00000"), ("critical", "#C00000"),
   ("blue", "#2E74B5"), ("info", "#2E74B5"),
   ("gold", "#FFC000"), ("warning", "#FFC000"), ("yellow", "#FFC000"),
   ("green", "#548235"), ("success", "#548235"),
   ("teal", "#154747"), ("primary", "#154747"),
   ("purple", "#7030A0"), ("orange", "#ED7D31")]

/-- Scan of COLOR_PALETTE items for a hex value equal (lowercased) to the
given string, returning the first matching name. -/
def findHexName (cl : String) : List (String × String) → Option String
  | [] => none
  | (name, hexv) :: rest => if pyLower hexv = cl then some name else findHexName cl rest

/-- FigureRegistry._normalize_color: normalize a color string to a palette
key; empty input falls back to teal, hex values are matched case-insensitively
against the palette, unmatched hex is returned lowercased/stripped, and
unmatched names fall back to teal. -/
def normalize_color (color : String) : String :=
  if color = "" then "teal"
  else
    let color_lower := pyStrip (pyLower color)
    if pyStartsWith color_lower "#" then
      match findHexName color_lower COLOR_PALETTE with
      | some name => name
      | none => color_lower
    else if (assocFind COLOR_PALETTE color_lower).isSome then color_lower else "teal"

/-- One value of the per-figure color map: {color_name, hex, type}. -/
structure ColorEntry where
  color_name : String
  hex : String
  type : String
deriving DecidableEq

/-- A legend entry {number, hex, text} (stored opaquely by add_figure). -/
structure LegendItem where
  number : ℤ
  hex : String
  text : String
deriving DecidableEq

/-- One callouts_for_text entry built by add_figure (v4.6). -/
structure CalloutText where
  number : ℤ
  color : String
  description : String
  inline_reference : String
deriving DecidableEq

/-- The v4.6 display-name mapping applied to normalized color names when
building callouts_for_text. -/
def displayColor (c : String) : String :=
  if c = "critical" then "red"
  else if c = "warning" then "gold"
  else if c = "info" then "blue"
  else if c = "success" then "green"
  else if c = "primary" then "teal"
  else c

/-- Stable insertion of a callout entry, preserving original order among
equal numbers (Python list.sort is stable). -/
def insertByNumber (c : CalloutText) : List CalloutText → List CalloutText
  | [] => [c]
  | d :: rest => if d.number < c.number then d :: insertByNumber c rest else c :: d :: rest

/-- Stable sort of callouts_for_text by callout number. -/
def sortByNumber : List CalloutText → List CalloutText
  | [] => []
  | c :: rest => insertByNumber c (sortByNumber rest)

/-- Figure record stored by FigureRegistry.add_figure. The Python key
"section" is modelled as sectionName (section is a Lean keyword). -/
structure FigData where
  figure_number : ℤ
  source_image : String
  annotated_image : String
  title : String
  description : String
  step_reference : String
  annotations : List Ann
  legend : List LegendItem
  callouts_for_text : List CalloutText
  dimensions : Option (ℤ × ℤ)
  sectionName : String
  color_map : List (ℤ × ColorEntry)
deriving DecidableEq

/-- FigureRegistry state: figures list, the monotonic _next_number counter and
the aggregated color_map {figure_number: {annotation_number: entry}}. -/
structure FigureRegistry where
  figures : List FigData
  next_number : ℤ
  color_map : List (ℤ × List (ℤ × ColorEntry))
deriving DecidableEq

/-- A fresh FigureRegistry (counter starts at 1). -/
def registry_init : FigureRegistry := ⟨[], 1, []⟩

/-- The color-map entry derived from one numbered annotation in add_figure:
color defaults to teal, the name is normalized, and the hex falls back to the
raw caller string when the normalized name is not a palette key. -/
def colorEntryOf (ann : Ann) : ColorEntry :=
  let color := ann.color.getD "teal"
  let color_name := normalize_color color
  { color_name := color_name,
    hex := (assocFind COLOR_PALETTE color_name).getD color,
    type := ann.type.getD "callout" }

/-- The annotation_colors dict built by add_figure: one entry per annotation
carrying a number key, later annotations overwriting earlier ones. -/
def annotationColors (anns : List Ann) : List (ℤ × ColorEntry) :=
  anns.foldl
    (fun m ann =>
      match ann.number with
      | some n => dictUpd m n (colorEntryOf ann)
      | none => m)
    []

/-- First truthy description among the annotations (used as figure
description fallback). -/
def firstAnnDesc : List Ann → Option String
  | [] => none
  | a :: rest =>
    match a.description with
    | some d => if d = "" then firstAnnDesc rest else some d
    | none => firstAnnDesc rest

/-- First truthy figure_title among the annotations. -/
def firstAnnTitle : List Ann → Option String
  | [] => none
  | a :: rest =>
    match a.figure_title with
    | some d => if d = "" then firstAnnTitle rest else some d
    | none => firstAnnTitle rest

/-- Python-truthiness fallback or on optional strings: a or b. -/
def orTruthy (a : Option String) (b : String) : String :=
  match a with
  | some s => if s = "" then b else s
  | none => b

/-- The callouts_for_text list of add_figure: callout annotations carrying a
truthy number, with display color, description fallback and a bare inline
(callout N) reference, sorted by number. -/
def calloutsForText (anns : List Ann) : List CalloutText :=
  sortByNumber (anns.filterMap fun ann =>
    match ann.type, ann.number with
    | some "callout", some n =>
      if n = 0 then none
      else
        let color_name := normalize_color (ann.color.getD "teal")
        some { number := n,
               color := displayColor color_name,
               description := ann.description.getD s!"Action {n}",
               inline_reference := s!"(callout {n})" }
    | _, _ => none)

/-- Arguments of FigureRegistry.add_figure (optional ones as Options). -/
structure AddFigureArgs where
  source_path : String
  annotated_path : String
  annotations : List Ann
  legend_items : Option (List LegendItem)
  dimensions : Option (ℤ × ℤ)
  sectionName : Option String
  title : Option String
  description : Option String
  step_reference : Option String
deriving DecidableEq

/-- FigureRegistry.add_figure: assign the next figure number, derive the
annotation color map, build the figure record, and update the registry
color_map when the annotation color map is nonempty. Returns the new state
and the assigned figure number. -/
def add_figure (reg : FigureRegistry) (args : AddFigureArgs) : FigureRegistry × ℤ :=
  let figure_num := reg.next_number
  let annotation_colors := annotationColors args.annotations
  let color_map :=
    if annotation_colors.isEmpty then reg.color_map
    else dictUpd reg.color_map figure_num annotation_colors
  let final_title := orTruthy args.title (orTruthy (firstAnnTitle args.annotations)
    s!"Figure {figure_num}")
  let final_description := orTruthy args.description
    (orTruthy (firstAnnDesc args.annotations) "Screenshot")
  let figure_data : FigData :=
    { figure_number := figure_num,
      source_image := args.source_path,
      annotated_image := args.annotated_path,
      title := final_title,
      description := final_description,
      step_reference := args.step_reference.getD "",
      annotations := args.annotations,
      legend := args.legend_items.getD [],
      callouts_for_text := calloutsForText args.annotations,
      dimensions := args.dimensions,
      sectionName := args.sectionName.getD "Uncategorized",
      color_map := annotation_colors }
  ({ figures := reg.figures ++ [figure_data],
     next_number := reg.next_number + 1,
     color_map := color_map }, figure_num)

/-- The JSON-serializable dict returned by FigureRegistry.to_json. -/
structure RegistryJson where
  figures : List FigData
  total_count : ℤ
  color_map : List (ℤ × List (ℤ × ColorEntry))
  color_palette : List (String × String)
  generated_by : String
deriving DecidableEq

/-- FigureRegistry.to_json. -/
def to_json (reg : FigureRegistry) : RegistryJson :=
  { figures := reg.figures,
    total_count := (reg.figures.length : ℤ),
    color_map := reg.color_map,
    color_palette := COLOR_PALETTE,
    generated_by := "TFCU Screenshot Annotation Pipeline v4.3.2" }

/- ------------------------------------------------------------------ -/
/- JSON round trip (FigureRegistry.save followed by json.load)         -/
/- ------------------------------------------------------------------ -/

/-- Python values as serialized to and re-read from JSON (the constructors
needed by the registry export). -/
inductive PyVal where
  | pint : ℤ → PyVal
  | pstr : String → PyVal
  | plist : List PyVal → PyVal
  | pdict : List (PyVal × PyVal) → PyVal

/-- json.dump key conversion: non-string dict keys (ints here) are written as
their decimal string form; json.load then reads them back as strings. -/
def jsonKeyFix : PyVal → PyVal
  | .pint n => .pstr (toString n)
  | v => v

mutual

/-- The value produced by json.load(json.dump(v)): identical except that int
dict keys come back as decimal strings. -/
def jsonRoundTrip : PyVal → PyVal
  | .pint n => .pint n
  | .pstr s => .pstr s
  | .plist xs => .plist (jsonRoundTripList xs)
  | .pdict es => .pdict (jsonRoundTripEntries es)

def jsonRoundTripList : List PyVal → List PyVal
  | [] => []
  | x :: xs => jsonRoundTrip x :: jsonRoundTripList xs

def jsonRoundTripEntries : List (PyVal × PyVal) → List (PyVal × PyVal)
  | [] => []
  | (k, v) :: es => (jsonKeyFix k, jsonRoundTrip v) :: jsonRoundTripEntries es

end

/-- In-memory Python value of one color-map entry. -/
def pyOfColorEntry (e : ColorEntry) : PyVal :=
  .pdict [(.pstr "color_name", .pstr e.color_name), (.pstr "hex", .pstr e.hex),
          (.pstr "type", .pstr e.type)]

/-- In-memory Python value of a per-figure color map (int keys). -/
def pyOfInnerMap (m : List (ℤ × ColorEntry)) : PyVal :=
  .pdict (m.map fun p => (.pint p.1, pyOfColorEntry p.2))

/-- In-memory Python value of the registry color_map (int keys at both
levels, as held by the live FigureRegistry). -/
def pyOfColorMap (cm : List (ℤ × List (ℤ × ColorEntry))) : PyVal :=
  .pdict (cm.map fun p => (.pint p.1, pyOfInnerMap p.2))

/-- The per-figure color map as it reappears after a JSON round trip: keys
have become decimal strings. -/
def pyOfInnerMapStr (m : List (ℤ × ColorEntry)) : PyVal :=
  .pdict (m.map fun p => (.pstr (toString p.1), pyOfColorEntry p.2))

/-- The registry color_map as it reappears after a JSON round trip: figure
and annotation keys have become decimal strings. -/
def pyOfColorMapStr (cm : List (ℤ × List (ℤ × ColorEntry))) : PyVal :=
  .pdict (cm.map fun p => (.pstr (toString p.1), pyOfInnerMapStr p.2))

/- ------------------------------------------------------------------ -/
/- TextColorParser (scripts/text_color_parser.py)                      -/
/-                                                                     -/
/- The regular expressions of the source are modelled by explicit      -/
/- character-level matchers. No color or annotation-type word of the   -/
/- alternations is a prefix of another, and the greedy \s+ and \d+     -/
/- atoms are never followed by something they could yield characters   -/
/- back to, so ordered first-match with greedy repetition reproduces   -/
/- the Python regex semantics of these patterns exactly.               -/
/- ------------------------------------------------------------------ -/

/-- The color alternation of the parser regexes, in palette order. -/
def COLOR_KEYS : List String := COLOR_PALETTE.map (fun p => p.1)

/-- ANNOTATION_TYPES of text_color_parser.py. -/
def ANNOTATION_TYPES : List String :=
  ["callout", "arrow", "highlight", "circle", "box", "label", "marker", "number", "indicator"]

/-- The trigger words of INLINE_PATTERN: (?:the|see|click|select). -/
def INLINE_TRIGGERS : List String := ["the", "see", "click", "select"]

/-- CIRCLED_NUMBERS of text_color_parser.py. -/
def CIRCLED_NUMBERS : List (Char × ℕ) :=
  [('①', 1), ('②', 2), ('③', 3), ('④', 4), ('⑤', 5),
   ('⑥', 6), ('⑦', 7), ('⑧', 8), ('⑨', 9), ('⑩', 10)]

/-- Case-insensitive literal match; returns the rest on success. -/
def matchLitCI : List Char → List Char → Option (List Char)
  | [], cs => some cs
  | _ :: _, [] => none
  | p :: ps, c :: cs => if c.toLower = p.toLower then matchLitCI ps cs else none

/-- Case-sensitive literal match; returns the rest on success. -/
def matchLitExact : List Char → List Char → Option (List Char)
  | [], cs => some cs
  | _ :: _, [] => none
  | p :: ps, c :: cs => if c = p then matchLitExact ps cs else none

/-- First alternative of an alternation that matches (case-insensitively) at
this position; the word lists used here are prefix-free, so this is the
unique possible match. -/
def matchAlt (alts : List String) (cs : List Char) : Option (String × List Char) :=
  match alts with
  | [] => none
  | w :: rest =>
    match matchLitCI w.data cs with
    | some r => some (w, r)
    | none => matchAlt rest cs

/-- One given character. -/
def matchCh (ch : Char) (cs : List Char) : Option (List Char) :=
  match cs with
  | c :: rest => if c = ch then some rest else none
  | [] => none

/-- Greedy \s+ (one or more whitespace characters). -/
def matchSpaces1 (cs : List Char) : Option (List Char) :=
  match cs with
  | c :: rest => if c.isWhitespace then some (rest.dropWhile Char.isWhitespace) else none
  | [] => none

/-- Greedy \d+ with its numeric value. -/
def matchDigits1 (cs : List Char) : Option (ℕ × List Char) :=
  match cs with
  | c :: rest =>
    if c.isDigit then
      some (((c :: rest.takeWhile Char.isDigit).foldl
               (fun n d => 10 * n + (d.toNat - 48)) 0),
            rest.dropWhile Char.isDigit)
    else none
  | [] => none

/-- A matched color reference: (color word, annotation-type word, optional
number). -/
abbrev RefMatch := String × String × Option ℕ

/-- PARENTHETICAL_PATTERN: \((COLORS)\s+(TYPES)(?:\s+(\d+))?\), with the
optional number group attempted greedily first, as the regex engine does. -/
def tryParenthetical (cs : List Char) : Option (RefMatch × List Char) :=
  (matchCh '(' cs).bind fun r1 =>
  (matchAlt COLOR_KEYS r1).bind fun cr =>
  (matchSpaces1 cr.2).bind fun r3 =>
  (matchAlt ANNOTATION_TYPES r3).bind fun tr =>
    let withNum : Option (RefMatch × List Char) :=
      (matchSpaces1 tr.2).bind fun r5 =>
      (matchDigits1 r5).bind fun nr =>
      (matchCh ')' nr.2).map fun r7 => ((cr.1, tr.1, some nr.1), r7)
    match withNum with
    | some res => some res
    | none => (matchCh ')' tr.2).map fun r5 => ((cr.1, tr.1, none), r5)

/-- INLINE_PATTERN: (?:the|see|click|select)\s+(COLORS)\s+(TYPES)(?:\s+(\d+))?. -/
def tryInline (cs : List Char) : Option (RefMatch × List Char) :=
  (matchAlt INLINE_TRIGGERS cs).bind fun tg =>
  (matchSpaces1 tg.2).bind fun r1 =>
  (matchAlt COLOR_KEYS r1).bind fun cr =>
  (matchSpaces1 cr.2).bind fun r3 =>
  (matchAlt ANNOTATION_TYPES r3).bind fun tr =>
    match (matchSpaces1 tr.2).bind matchDigits1 with
    | some nr => some ((cr.1, tr.1, some nr.1), nr.2)
    | none => some ((cr.1, tr.1, none), tr.2)

/-- NUMBER_FIRST_PATTERN: (TYPES)\s+(\d+)\s*\((COLORS)\). -/
def tryNumberFirst (cs : List Char) : Option (RefMatch × List Char) :=
  (matchAlt ANNOTATION_TYPES cs).bind fun tr =>
  (matchSpaces1 tr.2).bind fun r1 =>
  (matchDigits1 r1).bind fun nr =>
  (matchCh '(' (nr.2.dropWhile Char.isWhitespace)).bind fun r2 =>
  (matchAlt COLOR_KEYS r2).bind fun cr =>
  (matchCh ')' cr.2).map fun r3 => ((cr.1, tr.1, some nr.1), r3)

/-- The body of FIGURE_REF_PATTERN after the optional paren:
[Ff]igure\s+(\d+). -/
def figureCore (cs : List Char) : Option ℕ :=
  match cs with
  | c :: rest =>
    if c = 'F' ∨ c = 'f' then
      (matchLitExact "igure".data rest).bind fun r2 =>
      (matchSpaces1 r2).bind fun r3 =>
      (matchDigits1 r3).map fun p => p.1
    else none
  | [] => none

/-- re.search of FIGURE_REF_PATTERN (?:\()?[Ff]igure\s+(\d+)(?:\))?: the
first figure number found scanning left to right. -/
def searchFigure : List Char → Option ℕ
  | [] => none
  | c :: rest =>
    match (if c = '(' then figureCore rest else figureCore (c :: rest)) with
    | some n => some n
    | none => searchFigure rest

/-- re.finditer: non-overlapping matches scanning left to right, resuming
after the end of each match. The fuel is the remaining length; every pattern
used here consumes at least one character per match, so length + 1 fuel is
never exhausted. -/
def findAll {α : Type} (tryM : List Char → Option (α × List Char)) :
    ℕ → List Char → List α
  | 0, _ => []
  | _ + 1, [] => []
  | fuel + 1, c :: rest =>
    match tryM (c :: rest) with
    | some (a, r2) => a :: findAll tryM fuel r2
    | none => findAll tryM fuel rest

/-- Python regex word characters (ASCII view, sufficient for this corpus). -/
def isWordChar (c : Char) : Bool := c.isAlphanum || c = '_'

/-- re.search of \bWORD\b (case-insensitive) inside a text: some position
starts the word with non-word characters (or ends) on both sides. -/
def hasWordCI (w : List Char) (prev : Option Char) : List Char → Bool
  | [] => false
  | c :: rest =>
    let boundaryOk := match prev with
      | none => true
      | some p => !isWordChar p
    let hit := match matchLitCI w (c :: rest) with
      | some [] => true
      | some (d :: _) => !isWordChar d
      | none => false
    (boundaryOk && hit) || hasWordCI w (some c) rest

/-- TextColorParser._find_color_context: first palette color (in palette
order) appearing as a whole word in the given text. -/
def find_color_context (before : List Char) : Option String :=
  COLOR_KEYS.find? (fun col => hasWordCI col.data none before)

/-- The circled-number scan of _parse_line: for every circled glyph, the
color context of the text before it, if any. -/
def circledScan (before : List Char) : List Char → List (String × ℕ)
  | [] => []
  | c :: rest =>
    match (CIRCLED_NUMBERS.find? (fun p => p.1 = c)).map (fun p => p.2) with
    | some n =>
      (match find_color_context before.reverse with
       | some col => (col, n) :: circledScan (c :: before) rest
       | none => circledScan (c :: before) rest)
    | none => circledScan (c :: before) rest

/-- A color reference record built by _add_reference. -/
structure Ref where
  color : String
  hex : String
  ann_type : String
  number : Option ℕ
  line : ℕ
  figure : Option ℕ
  pattern : String
  context : String
deriving DecidableEq

/-- TextColorParser state: flat references list, by_figure index and the
current figure context. -/
structure ParserState where
  references : List Ref
  by_figure : List (ℕ × List Ref)
  current_figure : Option ℕ
deriving DecidableEq

/-- The fresh parser state installed by parse_text. -/
def parserInit : ParserState := ⟨[], [], none⟩

/-- Append a reference to the list held at a figure key (creating the key at
the end on first use), per the by_figure indexing of _add_reference. -/
def byFigAppend : List (ℕ × List Ref) → ℕ → Ref → List (ℕ × List Ref)
  | [], k, r => [(k, [r])]
  | (k0, rs) :: rest, k, r =>
    if k0 = k then (k0, rs ++ [r]) :: rest else (k0, rs) :: byFigAppend rest k r

/-- The reference record _add_reference builds (color and type lowercased,
hex defaulted, context truncated at 100 characters). -/
def refOf (color ann_ty : String) (number : Option ℕ) (line_num : ℕ)
    (pattern_ty : String) (context : String) (fig : Option ℕ) : Ref :=
  let color_lower := pyLower color
  { color := color_lower,
    hex := (assocFind COLOR_PALETTE color_lower).getD "#154747",
    ann_type := pyLower ann_ty,
    number := number,
    line := line_num,
    figure := fig,
    pattern := pattern_ty,
    context := if 100 < pyLen context then pyTake context 100 ++ "..." else context }

/-- TextColorParser._add_reference: append to the flat list always, and index
by figure only under a truthy current figure. -/
def add_reference (st : ParserState) (color ann_ty : String) (number : Option ℕ)
    (line_num : ℕ) (pattern_ty : String) (context : String) : ParserState :=
  let ref := refOf color ann_ty number line_num pattern_ty context st.current_figure
  { references := st.references ++ [ref],
    by_figure :=
      match st.current_figure with
      | some n => if n = 0 then st.by_figure else byFigAppend st.by_figure n ref
      | none => st.by_figure,
    current_figure := st.current_figure }

/-- TextColorParser._parse_line: update the figure context, then record the
matches of the four surface forms in source order. -/
def parse_line (st : ParserState) (line : String) (line_num : ℕ) : ParserState :=
  let cs := line.data
  let st1 := match searchFigure cs with
    | some n => { st with current_figure := some n }
    | none => st
  let ctx := pyStrip line
  let fuel := cs.length + 1
  let st2 := (findAll tryParenthetical fuel cs).foldl
    (fun s t => add_reference s t.1 t.2.1 t.2.2 line_num "parenthetical" ctx) st1
  let st3 := (findAll tryInline fuel cs).foldl
    (fun s t => add_reference s t.1 t.2.1 t.2.2 line_num "inline" ctx) st2
  let st4 := (findAll tryNumberFirst fuel cs).foldl
    (fun s t => add_reference s t.1 t.2.1 t.2.2 line_num "number_first" ctx) st3
  (circledScan [] cs).foldl
    (fun s t => add_reference s t.1 "callout" (some t.2) line_num "circled" ctx) st4

/-- Split a character list at a separator, keeping empty segments, exactly as
Python str.split with an explicit separator does. -/
def splitOnChar (sep : Char) : List Char → List (List Char)
  | [] => [[]]
  | c :: rest =>
    match splitOnChar sep rest with
    | [] => [[c]]
    | g :: gs => if c = sep then [] :: g :: gs else (c :: g) :: gs

/-- TextColorParser.parse_text: reset state and parse line by line with
1-based line numbers. -/
def parse_text (text : String) : ParserState :=
  ((splitOnChar '\n' text.data).foldl
    (fun (p : ParserState × ℕ) lineCs => (parse_line p.1 ⟨lineCs⟩ p.2, p.2 + 1))
    (parserInit, 1)).1

/-- One step of get_expected_colors: record the reference when both its
figure and number are truthy. -/
def expectedStep (acc : List (ℕ × List (ℕ × String))) (ref : Ref) :
    List (ℕ × List (ℕ × String)) :=
  match ref.figure, ref.number with
  | some f, some n =>
    if f = 0 ∨ n = 0 then acc
    else dictUpd acc f (dictUpd ((assocFind acc f).getD []) n ref.color)
  | _, _ => acc

/-- TextColorParser.get_expected_colors over the references list:
{figure_num: {annotation_num: color_name}}. -/
def get_expected_colors (refs : List Ref) : List (ℕ × List (ℕ × String)) :=
  refs.foldl expectedStep []

/- ------------------------------------------------------------------ -/
/- ColorConsistencyValidator (scripts/validate_procedure.py)           -/
/- ------------------------------------------------------------------ -/

/-- ColorConsistencyValidator.COLOR_EQUIVALENTS, in source order. -/
def COLOR_EQUIVALENTS : List (String × List String) :=
  [("red", ["red", "critical"]), ("critical", ["red", "critical"]),
   ("blue", ["blue", "info"]), ("info", ["blue", "info"]),
   ("gold", ["gold", "warning", "yellow"]), ("warning", ["gold", "warning", "yellow"]),
   ("yellow", ["gold", "warning", "yellow"]),
   ("green", ["green", "success"]), ("success", ["green", "success"]),
   ("teal", ["teal", "primary"]), ("primary", ["teal", "primary"]),
   ("purple", ["purple"]), ("orange", ["orange"])]

/-- Python list membership test. -/
def memB (x : String) : List String → Bool
  | [] => false
  | y :: ys => if y = x then true else memB x ys

/-- ColorConsistencyValidator._colors_match: equal lowercased names, or the
actual name belongs to the equivalence list of the expected name (defaulting
to the singleton of the expected name). -/
def colors_match (expected actual : String) : Bool :=
  let expected_lower := pyLower expected
  let actual_lower := pyLower actual
  if expected_lower = actual_lower then true
  else memB actual_lower ((assocFind COLOR_EQUIVALENTS expected_lower).getD [expected_lower])

/-- The equivalence classes declared by COLOR_EQUIVALENTS (its value sets). -/
def declaredClasses : List (List String) :=
  [["red", "critical"], ["blue", "info"], ["gold", "warning", "yellow"],
   ["green", "success"], ["teal", "primary"], ["purple"], ["orange"]]

/- ------------------------------------------------------------------ -/
/- Concrete inputs used by the claims                                  -/
/- ------------------------------------------------------------------ -/

/-- A callout descriptor at x=50%, y=50% with a description and a number. -/
def calloutAt50 (n : ℤ) : Ann :=
  { annBase with
    type := some "callout",
    position := some ⟨some (PyQ.ofInt 50), some (PyQ.ofInt 50)⟩,
    description := some "Click the button",
    number := some n }

/-- The 1000 x 1000 validator of claim C3 (default margin 5). -/
def v1000 : AnnotationValidator := ⟨1000, 1000, 5, []⟩

/-- A 20 x 20 validator: a canvas too small for a callout radius. -/
def v20 : AnnotationValidator := ⟨20, 20, 5, []⟩

/-- The text of claim C7. -/
def c7text : String :=
  "Figure 1\nClick the (red callout 1) button.\nFigure 2\n(blue arrow 2) shows..."

/-- add_figure arguments with one red callout number 1 (claim C5). -/
def c5args : AddFigureArgs :=
  { source_path := "raw/login.png",
    annotated_path := "out/login.png",
    annotations := [{ annBase with
      type := some "callout",
      position := some ⟨some (PyQ.ofInt 50), some (PyQ.ofInt 50)⟩,
      description := some "Click Login",
      number := some 1,
      color := some "red" }],
    legend_items := none,
    dimensions := none,
    sectionName := none,
    title := none,
    description := none,
    step_reference := none }

/-- The record placed for the first centered callout of claim C3. -/
def placed1 : PlacedAnn := ⟨500, 500, 28, "callout", some 1⟩

/-- The validator state after placing the first centered callout (claim C3). -/
def v1000b : AnnotationValidator := ⟨1000, 1000, 5, [placed1]⟩

/- ================================================================== -/
/- Theorems                                                            -/
/- ================================================================== -/

theorem memB_iff (x : String) (l : List String) : memB x l = true ↔ x ∈ l := by
  induction l with
  | nil => simp [memB]
  | cons y ys ih =>
    by_cases h : y = x
    · subst h; simp [memB]
    · simp [memB, h, ih, Ne.symm h]

theorem assocFind_mem {α β : Type} [DecidableEq α] (l : List (α × β)) (k : α) (v : β)
    (h : assocFind l k = some v) : (k, v) ∈ l := by
  induction l with
  | nil => simp [assocFind] at h
  | cons p rest ih =>
    obtain ⟨k0, v0⟩ := p
    by_cases hk : k0 = k
    · subst hk
      simp [assocFind] at h
      simp [h]
    · simp [assocFind, hk] at h
      exact List.mem_cons_of_mem _ (ih h)

theorem assocFind_isSome_iff {α β : Type} [DecidableEq α] (l : List (α × β)) (k : α) :
    (assocFind l k).isSome = true ↔ k ∈ l.map Prod.fst := by
  induction l with
  | nil => simp [assocFind]
  | cons p rest ih =>
    obtain ⟨k0, v0⟩ := p
    by_cases hk : k0 = k
    · subst hk; simp [assocFind]
    · simp [assocFind, hk, ih, Ne.symm hk]

theorem equivalents_key_mem :
    ∀ p ∈ COLOR_EQUIVALENTS, p.1 ∈ p.2 ∧ p.2 ∈ declaredClasses := by decide

theorem equivalents_lookup_of_class :
    ∀ cls ∈ declaredClasses, ∀ m ∈ cls, assocFind COLOR_EQUIVALENTS m = some cls := by decide

/-- C8: _colors_match returns true exactly when the two names are equal
case-insensitively or are co-members of a declared equivalence class; in
particular gold vs warning matches and gold vs green does not. -/
theorem claim_C8 :
    (∀ e a, colors_match e a = true ↔
      (pyLower e = pyLower a ∨
       ∃ cls ∈ declaredClasses, pyLower e ∈ cls ∧ pyLower a ∈ cls)) ∧
    colors_match "gold" "warning" = true ∧ colors_match "gold" "green" = false := by
  refine ⟨fun e a => ?_, by decide, by decide⟩
  unfold colors_match
  by_cases heq : pyLower e = pyLower a
  · simp [heq]
  · simp only [heq, if_false, false_or]
    cases h : assocFind COLOR_EQUIVALENTS (pyLower e) with
    | none =>
      simp only [Option.getD_none, memB_iff, List.mem_singleton]
      constructor
      · intro hx; exact absurd hx.symm heq
      · rintro ⟨cls, hcls, hecls, hacls⟩
        rw [equivalents_lookup_of_class cls hcls _ hecls] at h
        exact absurd h (by simp)
    | some cls =>
      have hmem := assocFind_mem _ _ _ h
      have hkey := equivalents_key_mem _ hmem
      simp only [Option.getD_some, memB_iff]
      constructor
      · intro ha; exact ⟨cls, hkey.2, hkey.1, ha⟩
      · rintro ⟨cls2, hcls2, hecls2, hacls2⟩
        have := equivalents_lookup_of_class cls2 hcls2 _ hecls2
        rw [this] at h
        injection h with h2
        exact h2 ▸ hacls2

/-- C9: clamp_to_bounds is idempotent at fixed radius, canvas and margin. -/
theorem claim_C9 (x y radius width height margin : ℤ) :
    clamp_to_bounds (clamp_to_bounds x y radius width height margin).1
      (clamp_to_bounds x y radius width height margin).2 radius width height margin
      = clamp_to_bounds x y radius width height margin := by
  unfold clamp_to_bounds
  refine Prod.ext ?_ ?_ <;> simp <;> omega

/-- C2: the two copies of percent_to_pixels disagree: at percent 50 and
dimension 3 the src copy truncates 1.5 to 1 while the extracted-skill copy
rounds 1.5 to 2, so there is no single rounding rule used everywhere. -/
theorem claim_C2 :
    Src.percent_to_pixels (PyQ.ofInt 50) 3 = 1 ∧
    percent_to_pixels (PyQ.ofInt 50) 3 = 2 ∧
    Src.percent_to_pixels (PyQ.ofInt 50) 3 ≠ percent_to_pixels (PyQ.ofInt 50) 3 := by
  decide

/-- C10: a reference added while no figure heading has been seen carries
figure = None, is appended to the flat references list, leaves by_figure
untouched, and contributes nothing to get_expected_colors. -/
theorem claim_C10 (st : ParserState) (color ann_ty : String) (num : Option ℕ)
    (ln : ℕ) (pk ctx : String) (refs : List Ref)
    (h : st.current_figure = none) :
    (add_reference st color ann_ty num ln pk ctx).references
      = st.references ++ [refOf color ann_ty num ln pk ctx none] ∧
    (refOf color ann_ty num ln pk ctx none).figure = none ∧
    (add_reference st color ann_ty num ln pk ctx).by_figure = st.by_figure ∧
    get_expected_colors (refOf color ann_ty num ln pk ctx none :: refs)
      = get_expected_colors refs := by
  unfold add_reference
  rw [h]
  exact ⟨rfl, rfl, rfl, rfl⟩

theorem claim_C10_witness :
    (add_reference parserInit "Red" "callout" (some 1) 1 "parenthetical" "ctx").references
      = [] ++ [refOf "Red" "callout" (some 1) 1 "parenthetical" "ctx" none] ∧
    (refOf "Red" "callout" (some 1) 1 "parenthetical" "ctx" none).figure = none ∧
    (add_reference parserInit "Red" "callout" (some 1) 1 "parenthetical" "ctx").by_figure
      = [] ∧
    get_expected_colors [refOf "Red" "callout" (some 1) 1 "parenthetical" "ctx" none]
      = get_expected_colors [] :=
  claim_C10 parserInit "Red" "callout" (some 1) 1 "parenthetical" "ctx" [] rfl

theorem findHexName_some_spec (cl : String) (l : List (String × String)) (name : String)
    (h : findHexName cl l = some name) : ∃ hx, (name, hx) ∈ l ∧ pyLower hx = cl := by
  induction l with
  | nil => simp [findHexName] at h
  | cons p rest ih =>
    obtain ⟨nm, hx⟩ := p
    by_cases hh : pyLower hx = cl
    · simp [findHexName, hh] at h
      exact ⟨hx, by simp [h], hh⟩
    · simp [findHexName, hh] at h
      obtain ⟨hx2, hmem, hl⟩ := ih h
      exact ⟨hx2, List.mem_cons_of_mem _ hmem, hl⟩

theorem findHexName_none_spec (cl : String) (l : List (String × String))
    (h : findHexName cl l = none) : ∀ p ∈ l, pyLower p.2 ≠ cl := by
  induction l with
  | nil => simp
  | cons p rest ih =>
    obtain ⟨nm, hx⟩ := p
    by_cases hh : pyLower hx = cl
    · simp [findHexName, hh] at h
    · simp [findHexName, hh] at h
      intro q hq
      rcases List.mem_cons.mp hq with hq2 | hq2
      · simpa [hq2] using hh
      · exact ih h q hq2

/-- C6 (amended): _normalize_color returns a palette key for every non-hex
input (falling back to teal when the lowercased, stripped input is not a
palette key), matches hex inputs case-insensitively against the palette
hex values, but returns an unrecognized hex string lowercased and stripped
instead of falling back to teal. -/
theorem claim_C6_amended (c : String) :
    (pyStartsWith (pyStrip (pyLower c)) "#" = false →
       normalize_color c ∈ COLOR_KEYS ∧
       (pyStrip (pyLower c) ∉ COLOR_KEYS → normalize_color c = "teal") ∧
       (c ≠ "" → pyStrip (pyLower c) ∈ COLOR_KEYS →
          normalize_color c = pyStrip (pyLower c))) ∧
    (pyStartsWith (pyStrip (pyLower c)) "#" = true →
       ((∃ p ∈ COLOR_PALETTE, pyLower p.2 = pyStrip (pyLower c)) →
          ∃ hx, (normalize_color c, hx) ∈ COLOR_PALETTE ∧
            pyLower hx = pyStrip (pyLower c)) ∧
       ((∀ p ∈ COLOR_PALETTE, pyLower p.2 ≠ pyStrip (pyLower c)) →
          normalize_color c = pyStrip (pyLower c))) := by
  by_cases hc : c = ""
  · subst hc
    refine ⟨fun _ => ⟨by decide, fun _ => by decide, fun hne _ => absurd rfl hne⟩,
            fun ht => absurd ht (by decide)⟩
  · set cl := pyStrip (pyLower c) with hcl
    constructor
    · intro hhash
      have hn : normalize_color c =
          if (assocFind COLOR_PALETTE cl).isSome then cl else "teal" := by
        unfold normalize_color
        simp [hc, ← hcl, hhash]
      cases hs : (assocFind COLOR_PALETTE cl).isSome with
      | false =>
        have hteal : normalize_color c = "teal" := by rw [hn, hs]; simp
        have hnot : cl ∉ COLOR_KEYS := fun hk => by
          have h2 := (assocFind_isSome_iff COLOR_PALETTE cl).mpr
            (by simpa [COLOR_KEYS] using hk)
          rw [hs] at h2
          exact absurd h2 (by simp)
        exact ⟨by rw [hteal]; decide, fun _ => hteal, fun _ hk => absurd hk hnot⟩
      | true =>
        have hkeys : cl ∈ COLOR_KEYS := by
          have h2 := (assocFind_isSome_iff COLOR_PALETTE cl).mp hs
          simpa [COLOR_KEYS] using h2
        have heq : normalize_color c = cl := by rw [hn, hs]; simp
        exact ⟨heq ▸ hkeys, fun hk => absurd hkeys hk, fun _ _ => heq⟩
    · intro hhash
      have hn : normalize_color c =
          (match findHexName cl COLOR_PALETTE with
           | some name => name
           | none => cl) := by
        unfold normalize_color
        simp [hc, ← hcl, hhash]
      constructor
      · rintro ⟨p, hp, hpl⟩
        cases hfind : findHexName cl COLOR_PALETTE with
        | none => exact absurd hpl (findHexName_none_spec _ _ hfind p hp)
        | some name =>
          obtain ⟨hx, hmem, hl⟩ := findHexName_some_spec _ _ _ hfind
          rw [hn, hfind]
          exact ⟨hx, hmem, hl⟩
      · intro hnone
        cases hfind : findHexName cl COLOR_PALETTE with
        | none => rw [hn, hfind]
        | some name =>
          obtain ⟨hx, hmem, hl⟩ := findHexName_some_spec _ _ _ hfind
          exact absurd hl (hnone (name, hx) hmem)

theorem claim_C6_counterexample :
    normalize_color "#ABCDEF" = "#abcdef" ∧
    normalize_color "#ABCDEF" ≠ "teal" ∧
    normalize_color "#ABCDEF" ∉ COLOR_KEYS := by decide

theorem claim_C6_witness :
    ∃ hx, (normalize_color "#c00000", hx) ∈ COLOR_PALETTE ∧
      pyLower hx = pyStrip (pyLower "#c00000") :=
  ((claim_C6_amended "#c00000").2 (by decide)).1 (by decide)

theorem jsonRoundTrip_colorEntry (e : ColorEntry) :
    jsonRoundTrip (pyOfColorEntry e) = pyOfColorEntry e := by
  simp [pyOfColorEntry, jsonRoundTrip, jsonRoundTripEntries, jsonKeyFix]

theorem jsonRoundTrip_innerMap (m : List (ℤ × ColorEntry)) :
    jsonRoundTrip (pyOfInnerMap m) = pyOfInnerMapStr m := by
  unfold pyOfInnerMap pyOfInnerMapStr
  simp only [jsonRoundTrip]
  congr 1
  induction m with
  | nil => simp [jsonRoundTripEntries]
  | cons p rest ih =>
    simp [jsonRoundTripEntries, jsonKeyFix, jsonRoundTrip_colorEntry, ih]

theorem jsonRoundTrip_colorMap (cm : List (ℤ × List (ℤ × ColorEntry))) :
    jsonRoundTrip (pyOfColorMap cm) = pyOfColorMapStr cm := by
  unfold pyOfColorMap pyOfColorMapStr
  simp only [jsonRoundTrip]
  congr 1
  induction cm with
  | nil => simp [jsonRoundTripEntries]
  | cons p rest ih =>
    simp [jsonRoundTripEntries, jsonKeyFix, jsonRoundTrip_innerMap, ih]

/-- C5 (amended): for every sequence of add_figure calls, dumping via
to_json/save and re-loading preserves total_count exactly and preserves the
color_map values and nesting, but the integer figure and annotation keys come
back as decimal strings. -/
theorem claim_C5_amended (batches : List AddFigureArgs) :
    jsonRoundTrip (pyOfColorMap
        (batches.foldl (fun r a => (add_figure r a).1) registry_init).color_map)
      = pyOfColorMapStr
        (batches.foldl (fun r a => (add_figure r a).1) registry_init).color_map ∧
    jsonRoundTrip (.pint (to_json
        (batches.foldl (fun r a => (add_figure r a).1) registry_init)).total_count)
      = .pint (to_json
        (batches.foldl (fun r a => (add_figure r a).1) registry_init)).total_count :=
  ⟨jsonRoundTrip_colorMap _, rfl⟩

theorem claim_C5_counterexample :
    jsonRoundTrip (pyOfColorMap (add_figure registry_init c5args).1.color_map)
      ≠ pyOfColorMap (add_figure registry_init c5args).1.color_map := by
  have h : (add_figure registry_init c5args).1.color_map
      = [(1, [(1, ⟨"red", "#C00000", "callout"⟩)])] := by decide
  rw [h]
  simp [pyOfColorMap, pyOfInnerMap, pyOfColorEntry, jsonRoundTrip,
    jsonRoundTripEntries, jsonKeyFix]

theorem check_bounds_fst_iff (v : AnnotationValidator) (x y r : ℤ) :
    (check_bounds v x y r).1 = true ↔
      (v.margin ≤ x - r ∧ x + r ≤ v.width - v.margin ∧
       v.margin ≤ y - r ∧ y + r ≤ v.height - v.margin) := by
  unfold check_bounds
  split_ifs with h1 h2 h3 h4 <;> simp <;> omega

theorem clamp_to_bounds_mem (x y r w h m : ℤ) (h1 : 2 * (r + m) ≤ w)
    (h2 : 2 * (r + m) ≤ h) :
    m ≤ (clamp_to_bounds x y r w h m).1 - r ∧ (clamp_to_bounds x y r w h m).1 + r ≤ w - m ∧
    m ≤ (clamp_to_bounds x y r w h m).2 - r ∧ (clamp_to_bounds x y r w h m).2 + r ≤ h - m := by
  unfold clamp_to_bounds
  simp only
  omega

theorem suggest_adjustment_mem (v : AnnotationValidator) (x y r : ℤ)
    (cols : List Collision) (hne : cols ≠ [])
    (h1 : 2 * (r + v.margin) ≤ v.width) (h2 : 2 * (r + v.margin) ≤ v.height) :
    v.margin ≤ (suggest_adjustment v x y r cols).1 - r ∧
    (suggest_adjustment v x y r cols).1 + r ≤ v.width - v.margin ∧
    v.margin ≤ (suggest_adjustment v x y r cols).2 - r ∧
    (suggest_adjustment v x y r cols).2 + r ≤ v.height - v.margin := by
  have hie : cols.isEmpty = false := by
    cases cols with
    | nil => exact absurd rfl hne
    | cons a l => rfl
  simp only [suggest_adjustment, hie, Bool.false_eq_true, if_false]
  exact clamp_to_bounds_mem _ _ _ _ _ _ h1 h2

theorem adjust_for_bounds_mem (v : AnnotationValidator) (x y r : ℤ)
    (h1 : 2 * (r + v.margin) ≤ v.width) (h2 : 2 * (r + v.margin) ≤ v.height) :
    v.margin ≤ (adjust_for_bounds v x y r).1 - r ∧
    (adjust_for_bounds v x y r).1 + r ≤ v.width - v.margin ∧
    v.margin ≤ (adjust_for_bounds v x y r).2 - r ∧
    (adjust_for_bounds v x y r).2 + r ≤ v.height - v.margin := by
  unfold adjust_for_bounds
  cases hcb : (check_bounds v x y r).1 with
  | true =>
    simp only [if_true]
    have h3 := (check_bounds_fst_iff v x y r).mp hcb
    exact ⟨h3.1, h3.2.1, h3.2.2.1, h3.2.2.2⟩
  | false =>
    simp only [Bool.false_eq_true, if_false]
    exact clamp_to_bounds_mem x y r v.width v.height v.margin h1 h2

theorem final_position_mem (v : AnnotationValidator) (x y r : ℤ)
    (h1 : 2 * (r + v.margin) ≤ v.width) (h2 : 2 * (r + v.margin) ≤ v.height) :
    v.margin ≤ (final_position v x y r).1 - r ∧
    (final_position v x y r).1 + r ≤ v.width - v.margin ∧
    v.margin ≤ (final_position v x y r).2 - r ∧
    (final_position v x y r).2 + r ≤ v.height - v.margin := by
  simp only [final_position]
  cases he : (check_collision v (adjust_for_bounds v x y r).1
      (adjust_for_bounds v x y r).2 r 5).isEmpty with
  | true =>
    simp only [if_true]
    exact adjust_for_bounds_mem v x y r h1 h2
  | false =>
    simp only [Bool.false_eq_true, if_false]
    refine suggest_adjustment_mem v _ _ r _ ?_ h1 h2
    intro h0
    rw [h0] at he
    simp at he

theorem validate_and_adjust_snd (v : AnnotationValidator) (ann : Ann) :
    (validate_and_adjust v ann).2 = { v with placed_annotations := v.placed_annotations ++
      [⟨(final_position v (get_annotation_bounds v ann 18).1
            (get_annotation_bounds v ann 18).2.1 (get_annotation_bounds v ann 18).2.2).1,
        (final_position v (get_annotation_bounds v ann 18).1
            (get_annotation_bounds v ann 18).2.1 (get_annotation_bounds v ann 18).2.2).2,
        (get_annotation_bounds v ann 18).2.2, ann.type.getD "callout", ann.number⟩] } := rfl

/-- C4: missing or empty description on a callout/arrow/highlight descriptor
is the one and only source of valid = false and comes with an error message,
yet the record is appended to placed_annotations regardless; out-of-bounds
and collision conditions set adjusted (with warnings handled in the source
branches) and never set valid = false. -/
theorem claim_C4 (v : AnnotationValidator) (ann : Ann) :
    ((validate_and_adjust v ann).1.valid = false ↔
      ((ann.description = none ∨ ann.description = some "") ∧
       (ann.type.getD "callout" = "callout" ∨ ann.type.getD "callout" = "arrow" ∨
        ann.type.getD "callout" = "highlight"))) ∧
    ((validate_and_adjust v ann).1.valid = false →
      (validate_and_adjust v ann).1.errors ≠ []) ∧
    ((validate_and_adjust v ann).2.placed_annotations = v.placed_annotations ++
      [⟨(final_position v (get_annotation_bounds v ann 18).1
            (get_annotation_bounds v ann 18).2.1 (get_annotation_bounds v ann 18).2.2).1,
        (final_position v (get_annotation_bounds v ann 18).1
            (get_annotation_bounds v ann 18).2.1 (get_annotation_bounds v ann 18).2.2).2,
        (get_annotation_bounds v ann 18).2.2, ann.type.getD "callout", ann.number⟩]) ∧
    ((validate_and_adjust v ann).1.adjusted = true ↔
      ((check_bounds v (get_annotation_bounds v ann 18).1
          (get_annotation_bounds v ann 18).2.1 (get_annotation_bounds v ann 18).2.2).1 = false ∨
       check_collision v
         (adjust_for_bounds v (get_annotation_bounds v ann 18).1
             (get_annotation_bounds v ann 18).2.1 (get_annotation_bounds v ann 18).2.2).1
         (adjust_for_bounds v (get_annotation_bounds v ann 18).1
             (get_annotation_bounds v ann 18).2.1 (get_annotation_bounds v ann 18).2.2).2
         (get_annotation_bounds v ann 18).2.2 5 ≠ [])) ∧
    (((check_bounds v (get_annotation_bounds v ann 18).1
          (get_annotation_bounds v ann 18).2.1 (get_annotation_bounds v ann 18).2.2).1 = false ∨
      check_collision v
        (adjust_for_bounds v (get_annotation_bounds v ann 18).1
            (get_annotation_bounds v ann 18).2.1 (get_annotation_bounds v ann 18).2.2).1
        (adjust_for_bounds v (get_annotation_bounds v ann 18).1
            (get_annotation_bounds v ann 18).2.1 (get_annotation_bounds v ann 18).2.2).2
        (get_annotation_bounds v ann 18).2.2 5 ≠ []) →
      (validate_and_adjust v ann).1.warnings ≠ []) := by
  have hlist : ∀ (l : List Collision), ((!l.isEmpty) = true) ↔ l ≠ [] := by
    intro l; cases l <;> simp
  refine ⟨?_, ?_, rfl, ?_, ?_⟩
  · by_cases hd : (ann.description = none ∨ ann.description = some "") ∧
       (ann.type.getD "callout" = "callout" ∨ ann.type.getD "callout" = "arrow" ∨
        ann.type.getD "callout" = "highlight")
    · simp [validate_and_adjust, hd]
    · simp [validate_and_adjust, hd]
  · by_cases hd : (ann.description = none ∨ ann.description = some "") ∧
       (ann.type.getD "callout" = "callout" ∨ ann.type.getD "callout" = "arrow" ∨
        ann.type.getD "callout" = "highlight")
    · intro _
      simp [validate_and_adjust, hd]
    · intro hv
      simp [validate_and_adjust, hd] at hv
  · have ha : (validate_and_adjust v ann).1.adjusted
        = ((!(check_bounds v (get_annotation_bounds v ann 18).1
              (get_annotation_bounds v ann 18).2.1 (get_annotation_bounds v ann 18).2.2).1)
           || (!(check_collision v
              (adjust_for_bounds v (get_annotation_bounds v ann 18).1
                  (get_annotation_bounds v ann 18).2.1 (get_annotation_bounds v ann 18).2.2).1
              (adjust_for_bounds v (get_annotation_bounds v ann 18).1
                  (get_annotation_bounds v ann 18).2.1 (get_annotation_bounds v ann 18).2.2).2
              (get_annotation_bounds v ann 18).2.2 5).isEmpty)) := rfl
    rw [ha]
    simp only [Bool.or_eq_true, Bool.not_eq_true', hlist]
  · intro hcond
    cases hcb : (check_bounds v (get_annotation_bounds v ann 18).1
        (get_annotation_bounds v ann 18).2.1 (get_annotation_bounds v ann 18).2.2).1 with
    | false =>
      simp only [validate_and_adjust, hcb, Bool.false_eq_true, if_false]
      simp
    | true =>
      have hcols : check_collision v
          (adjust_for_bounds v (get_annotation_bounds v ann 18).1
              (get_annotation_bounds v ann 18).2.1 (get_annotation_bounds v ann 18).2.2).1
          (adjust_for_bounds v (get_annotation_bounds v ann 18).1
              (get_annotation_bounds v ann 18).2.1 (get_annotation_bounds v ann 18).2.2).2
          (get_annotation_bounds v ann 18).2.2 5 ≠ [] := by
        rcases hcond with h0 | h0
        · rw [hcb] at h0; exact absurd h0 (by simp)
        · exact h0
      have hie : (check_collision v
          (adjust_for_bounds v (get_annotation_bounds v ann 18).1
              (get_annotation_bounds v ann 18).2.1 (get_annotation_bounds v ann 18).2.2).1
          (adjust_for_bounds v (get_annotation_bounds v ann 18).1
              (get_annotation_bounds v ann 18).2.1 (get_annotation_bounds v ann 18).2.2).2
          (get_annotation_bounds v ann 18).2.2 5).isEmpty = false := by
        cases hx : check_collision v
            (adjust_for_bounds v (get_annotation_bounds v ann 18).1
                (get_annotation_bounds v ann 18).2.1 (get_annotation_bounds v ann 18).2.2).1
            (adjust_for_bounds v (get_annotation_bounds v ann 18).1
                (get_annotation_bounds v ann 18).2.1 (get_annotation_bounds v ann 18).2.2).2
            (get_annotation_bounds v ann 18).2.2 5 with
        | nil => exact absurd hx hcols
        | cons a l => rfl
      simp only [validate_and_adjust, hcb, if_true, hie, Bool.false_eq_true, if_false]
      simp

theorem claim_C4_witness :
    (validate_and_adjust v1000 (calloutAt50 1)).1.valid = false ↔
      (((calloutAt50 1).description = none ∨ (calloutAt50 1).description = some "") ∧
       ((calloutAt50 1).type.getD "callout" = "callout" ∨
        (calloutAt50 1).type.getD "callout" = "arrow" ∨
        (calloutAt50 1).type.getD "callout" = "highlight")) :=
  (claim_C4 v1000 (calloutAt50 1)).1

theorem get_annotation_bounds_placed_irrel (w h m : ℤ) (p : List PlacedAnn)
    (ann : Ann) (d : ℤ) :
    get_annotation_bounds ⟨w, h, m, p⟩ ann d = get_annotation_bounds ⟨w, h, m, []⟩ ann d := rfl

theorem validate_fold_inv (w h m : ℤ) (anns : List Ann) :
    ∀ (p : List PlacedAnn) (i : ℕ),
      (∀ rec ∈ p, withinBounds w h m rec) →
      (∀ ann ∈ anns, fitsCanvas w h m (get_annotation_bounds ⟨w, h, m, []⟩ ann 18).2.2) →
      ∀ rec ∈ (validate_fold ⟨w, h, m, p⟩ anns i).2.placed_annotations,
        withinBounds w h m rec := by
  induction anns with
  | nil =>
    intro p i hinv hfits rec hrec
    simp only [validate_fold] at hrec
    exact hinv rec hrec
  | cons a rest ih =>
    intro p i hinv hfits rec hrec
    simp only [validate_fold] at hrec
    rw [validate_and_adjust_snd] at hrec
    refine ih (p ++ [_]) (i + 1) ?_ (fun x hx => hfits x (List.mem_cons_of_mem _ hx)) rec hrec
    intro r hr
    rcases List.mem_append.mp hr with hr2 | hr2
    · exact hinv r hr2
    · rw [List.mem_singleton] at hr2
      subst hr2
      have hfit := hfits a (List.mem_cons_self a rest)
      have hb := final_position_mem ⟨w, h, m, p⟩
        (get_annotation_bounds ⟨w, h, m, p⟩ a 18).1
        (get_annotation_bounds ⟨w, h, m, p⟩ a 18).2.1
        (get_annotation_bounds ⟨w, h, m, p⟩ a 18).2.2 hfit.1 hfit.2
      exact ⟨hb.1, hb.2.1, hb.2.2.1, hb.2.2.2⟩

/-- C1 (amended): for every ordered descriptor list, every record appended to
placed_annotations satisfies margin ≤ x − radius, x + radius ≤ width − margin,
margin ≤ y − radius and y + radius ≤ height − margin, provided the canvas
accommodates the effective radius of each descriptor, that is,
2 * (radius + margin) ≤ width and 2 * (radius + margin) ≤ height; on smaller
canvases the clamp pins records at radius + margin and the upper bounds fail. -/
theorem claim_C1_amended (v : AnnotationValidator) (anns : List Ann)
    (h : ∀ ann ∈ anns, fitsCanvas v.width v.height v.margin
        (get_annotation_bounds ⟨v.width, v.height, v.margin, []⟩ ann 18).2.2) :
    ∀ rec ∈ (validate_all v anns).2.placed_annotations,
      withinBounds v.width v.height v.margin rec := by
  intro rec hrec
  have h0 : (validate_all v anns).2
      = (validate_fold ⟨v.width, v.height, v.margin, []⟩ anns 0).2 := rfl
  rw [h0] at hrec
  exact validate_fold_inv v.width v.height v.margin anns [] 0 (by simp) h rec hrec

theorem claim_C1_counterexample :
    ∃ rec ∈ (validate_all v20 [calloutAt50 1]).2.placed_annotations,
      ¬ withinBounds 20 20 5 rec := by decide

theorem claim_C1_witness :
    (∀ ann ∈ [calloutAt50 1], fitsCanvas v1000.width v1000.height v1000.margin
        (get_annotation_bounds ⟨v1000.width, v1000.height, v1000.margin, []⟩ ann 18).2.2) ∧
    (∀ rec ∈ (validate_all v1000 [calloutAt50 1]).2.placed_annotations,
        withinBounds v1000.width v1000.height v1000.margin rec) :=
  ⟨by decide, claim_C1_amended v1000 [calloutAt50 1] (by decide)⟩

theorem roundHalfEvenR_intCast (n : ℤ) : roundHalfEvenR ((n : ℤ) : ℝ) = n := by
  simp [roundHalfEvenR]

theorem c3_check_collision :
    check_collision v1000b 500 500 28 5 = [⟨placed1, 0, 61, 61⟩] := by
  simp only [check_collision, v1000b, placed1, List.filterMap_cons, List.filterMap_nil]
  norm_num [Real.sqrt_zero]

theorem c3_suggest_adjustment :
    suggest_adjustment v1000b 500 500 28 [⟨placed1, 0, 61, 61⟩] = (566, 566) := by
  simp only [suggest_adjustment, List.isEmpty_cons, Bool.false_eq_true, if_false,
    List.foldl_cons, List.foldl_nil, placed1]
  norm_num [Real.sqrt_zero]
  have h566 : (566 : ℝ) = ((566 : ℤ) : ℝ) := by norm_num
  rw [h566, roundHalfEvenR_intCast]
  decide

theorem c3_final_position : final_position v1000b 500 500 28 = (566, 566) := by
  have hab : adjust_for_bounds v1000b 500 500 28 = (500, 500) := by decide
  simp only [final_position, hab]
  rw [c3_check_collision]
  simp only [List.isEmpty_cons, Bool.false_eq_true, if_false]
  exact c3_suggest_adjustment

theorem c3_second_step :
    validate_and_adjust v1000b (calloutAt50 2) =
      (⟨true, true, some ⟨500, 500, 28⟩, some ⟨566, 566, 28⟩,
        ["Collision detected with 1 annotation(s)"], []⟩,
       ⟨1000, 1000, 5, [placed1, ⟨566, 566, 28, "callout", some 2⟩]⟩) := by
  have hb : get_annotation_bounds v1000b (calloutAt50 2) 18 = (500, 500, 28) := by decide
  have hcb : check_bounds v1000b 500 500 28 = (true, "OK") := by decide
  have hab : adjust_for_bounds v1000b 500 500 28 = (500, 500) := by decide
  simp only [validate_and_adjust, hb]
  simp only [hcb, hab, c3_check_collision, c3_final_position]
  simp only [List.isEmpty_cons, Bool.false_eq_true, if_false, List.length_cons,
    List.length_nil]
  decide

/-- C3: for two callouts both at the center of a 1000 x 1000 canvas numbered
1 and 2, validate_all reports a collision warning for the second, marks it
adjusted, and its final adjusted position (566, 566) with effective radius 28
lies within the clamp interval [radius + margin, dimension - radius - margin]
on both axes. -/
theorem claim_C3 :
    ∃ e : VEntry,
      ((validate_all v1000 [calloutAt50 1, calloutAt50 2]).1.entries).get? 1 = some e ∧
      e.res.adjusted = true ∧
      e.res.warnings = ["Collision detected with 1 annotation(s)"] ∧
      e.res.adjusted_position = some ⟨566, 566, 28⟩ ∧
      (28 + 5 : ℤ) ≤ 566 ∧ (566 : ℤ) ≤ 1000 - 28 - 5 := by
  have h1 : validate_and_adjust ⟨1000, 1000, 5, []⟩ (calloutAt50 1)
      = (⟨true, false, some ⟨500, 500, 28⟩, none, [], []⟩, v1000b) := by decide
  have hfold : validate_fold ⟨1000, 1000, 5, []⟩ [calloutAt50 1, calloutAt50 2] 0
      = ([⟨⟨true, false, some ⟨500, 500, 28⟩, none, [], []⟩, 0, calloutAt50 1⟩,
          ⟨⟨true, true, some ⟨500, 500, 28⟩, some ⟨566, 566, 28⟩,
            ["Collision detected with 1 annotation(s)"], []⟩, 1, calloutAt50 2⟩],
         ⟨1000, 1000, 5, [placed1, ⟨566, 566, 28, "callout", some 2⟩]⟩) := by
    simp only [validate_fold, h1, c3_second_step]
  have hv : (validate_all v1000 [calloutAt50 1, calloutAt50 2]).1.entries
      = (validate_fold ⟨1000, 1000, 5, []⟩ [calloutAt50 1, calloutAt50 2] 0).1 := rfl
  refine ⟨⟨⟨true, true, some ⟨500, 500, 28⟩, some ⟨566, 566, 28⟩,
            ["Collision detected with 1 annotation(s)"], []⟩, 1, calloutAt50 2⟩,
          ?_, rfl, rfl, rfl, by norm_num, by norm_num⟩
  rw [hv, hfold]
  rfl

/-- C7: on the four-line sample text, parse_text followed by
get_expected_colors yields exactly {1: {1: red}, 2: {2: blue}}. -/
theorem claim_C7 :
    get_expected_colors (parse_text c7text).references
      = [(1, [(1, "red")]), (2, [(2, "blue")])] := by decide
